import Mathlib

/-!
Shallow embedding of `src/autocommand/autocommand.py`.

The repository's only source file defines `autocommand(module, *, description,
epilog, add_nos, parser, loop, forever)`: it raises `TypeError` when `module`
is callable, and otherwise returns a decorator that wraps `func` with
(conditionally) `autoasync`, then `autoparse`, then `automain(module)`.

The sibling helpers `autoparse`, `automain` and `autoasync` are not part of
the given source; the claims are only about how `autocommand` composes them,
so they are embedded as opaque wrapper constructors of a value type: applying
a helper builds the corresponding node, recording exactly the arguments that
`autocommand` passes to it.
-/

namespace Autocommand

/-- Python values, as far as this file needs them: a few non-callable
primitives, base functions, an event-loop object (the result of
`asyncio.get_event_loop()`), and the three opaque wrapper applications.
`autoasyncW f loop forever` stands for `autoasync(f, loop=loop,
forever=forever)`, `autoparseW f d e n p` for `autoparse(f, description=d,
epilog=e, add_nos=n, parser=p)`, and `automainW m f` for `automain(m)(f)`. -/
inductive Value where
  | none : Value
  | bool : Bool → Value
  | int : Int → Value
  | str : String → Value
  | func : String → Value
  | eventLoop : Value
  | autoasyncW : Value → Value → Bool → Value
  | autoparseW : Value → Value → Value → Bool → Value → Value
  | automainW : Value → Value → Value
  deriving DecidableEq, Repr

/-- Python `callable(x)`: functions and the results of the decorator helpers
are callable; `None`, booleans, numbers, strings and event loops are not. -/
def Value.callable : Value → Bool
  | .func _ => true
  | .autoasyncW _ _ _ => true
  | .autoparseW _ _ _ _ _ => true
  | .automainW _ _ => true
  | _ => false

/-- The keyword arguments of `autocommand` after `module`.  The booleans
`add_nos` and `forever` are only ever tested for truthiness / forwarded, so
they are embedded as `Bool`; the rest are arbitrary values. -/
structure Args where
  description : Value
  epilog : Value
  add_nos : Bool
  parser : Value
  loop : Value
  forever : Bool
  deriving DecidableEq, Repr

/-- `asyncio.get_event_loop()`, embedded as the fixed event-loop object
obtained at decoration time. -/
def get_event_loop : Value := Value.eventLoop

/-- A Python exception raised by this module. -/
inductive PyError where
  | typeError : String → PyError
  deriving DecidableEq, Repr

/-- The inner decorator `autocommand_decorator(func)` from the source,
translated step by step: Step 1 rebinds `func` to
`autoasync(func, loop=get_event_loop() if loop is True else loop,
forever=forever)` when `loop is not None`; Step 2 rebinds it to
`autoparse(func, description=..., epilog=..., add_nos=..., parser=...)`;
Step 3 rebinds it to `automain(module)(func)` and returns it. -/
def autocommand_decorator (module : Value) (a : Args) (func : Value) : Value :=
  let func := if a.loop ≠ Value.none then
      Value.autoasyncW func
        (if a.loop = Value.bool true then get_event_loop else a.loop)
        a.forever
    else func
  let func := Value.autoparseW func a.description a.epilog a.add_nos a.parser
  let func := Value.automainW module func
  func

/-- `autocommand(module, *, ...)` from the source: raise
`TypeError('autocommand requires a module name argument')` when `module` is
callable, otherwise return `autocommand_decorator`. -/
def autocommand (module : Value) (a : Args) : Except PyError (Value → Value) :=
  if module.callable then
    .error (.typeError "autocommand requires a module name argument")
  else
    .ok (autocommand_decorator module a)

/-- Whether a value contains an `autoasync` wrapper anywhere in its wrapper
structure. -/
def Value.hasAutoasync : Value → Bool
  | .autoasyncW _ _ _ => true
  | .autoparseW f _ _ _ _ => f.hasAutoasync
  | .automainW _ f => f.hasAutoasync
  | _ => false

/-- The parser-configuration arguments recorded in the `autoparse` node of a
fully wrapped result `automain(module)(autoparse(...))`, when present. -/
def parserConfig : Value → Option (Value × Value × Bool × Value)
  | .automainW _ (.autoparseW _ d e n p) => some (d, e, n, p)
  | _ => Option.none

/-- The `forever` argument recorded in the `autoasync` node of a fully
wrapped result, when that node is present. -/
def asyncForever : Value → Option Bool
  | .automainW _ (.autoparseW (.autoasyncW _ _ fv) _ _ _ _) => some fv
  | _ => Option.none

/-- The `loop` argument recorded in the `autoasync` node of a fully wrapped
result, when that node is present. -/
def asyncLoop : Value → Option Value
  | .automainW _ (.autoparseW (.autoasyncW _ lv _) _ _ _ _) => some lv
  | _ => Option.none

/-- C1: for every non-callable `module` and every `func`, `autocommand`
returns the decorator, and the decorator's result is exactly
`automain(module)(autoparse(autoasync(func, loop=..., forever=...), ...))`
when `loop` is not `None`, and `automain(module)(autoparse(func, ...))`
otherwise: three wrapping steps, autoasync (conditional) innermost, then
autoparse, then `automain(module)` outermost. -/
theorem autocommand_composition (module : Value) (a : Args) (func : Value)
    (hm : module.callable = false) :
    autocommand module a = Except.ok (autocommand_decorator module a) ∧
    autocommand_decorator module a func =
      Value.automainW module
        (Value.autoparseW
          (if a.loop ≠ Value.none then
             Value.autoasyncW func
               (if a.loop = Value.bool true then get_event_loop else a.loop)
               a.forever
           else func)
          a.description a.epilog a.add_nos a.parser) := by
  refine ⟨by simp [autocommand, hm], ?_⟩
  by_cases h : a.loop = Value.none <;>
    simp [autocommand_decorator, h]

/-- Witness for C1 at `module = "mymod"` (a string, not callable),
`loop = None`. -/
theorem autocommand_composition_witness :
    Value.callable (Value.str "mymod") = false ∧
    autocommand_decorator (Value.str "mymod")
        ⟨Value.none, Value.none, false, Value.none, Value.none, false⟩
        (Value.func "f") =
      Value.automainW (Value.str "mymod")
        (Value.autoparseW (Value.func "f")
          Value.none Value.none false Value.none) := by
  have h := autocommand_composition (Value.str "mymod")
    ⟨Value.none, Value.none, false, Value.none, Value.none, false⟩
    (Value.func "f") (by decide)
  exact ⟨by decide, by simpa using h.2⟩

/-- C2: `autocommand(module, ...)` raises `TypeError` exactly when `module`
is callable, and for every non-callable `module` it returns the decorator
function without raising (and without performing any wrapping: wrapping only
happens when the returned decorator is later applied). -/
theorem autocommand_typeerror_iff (module : Value) (a : Args) :
    (autocommand module a =
        Except.error
          (PyError.typeError "autocommand requires a module name argument") ↔
      module.callable = true) ∧
    (autocommand module a = Except.ok (autocommand_decorator module a) ↔
      module.callable = false) := by
  unfold autocommand
  cases h : module.callable <;> simp

/-- C3: the `autoasync` wrapping appears in the decorated result exactly when
`loop` is not `None`; for a base function and `loop = None` the result
contains no `autoasync` wrapper at all. -/
theorem autoasync_iff_loop (module : Value) (a : Args) (func : Value)
    (hm : module.callable = false) (hf : func.hasAutoasync = false) :
    ∃ d, autocommand module a = Except.ok d ∧
      ((d func).hasAutoasync = true ↔ a.loop ≠ Value.none) := by
  refine ⟨autocommand_decorator module a, by simp [autocommand, hm], ?_⟩
  by_cases h : a.loop = Value.none <;>
    simp [autocommand_decorator, Value.hasAutoasync, h, hf]

/-- Witness for C3 at `module = "mymod"`, base function `f`, once with
`loop = None` and once with an explicit loop object. -/
theorem autoasync_iff_loop_witness :
    (∃ d, autocommand (Value.str "mymod")
        ⟨Value.none, Value.none, false, Value.none, Value.none, false⟩ =
          Except.ok d ∧
      ((d (Value.func "f")).hasAutoasync = true ↔
        (Value.none : Value) ≠ Value.none)) ∧
    (∃ d, autocommand (Value.str "mymod")
        ⟨Value.none, Value.none, false, Value.none, Value.eventLoop, false⟩ =
          Except.ok d ∧
      ((d (Value.func "f")).hasAutoasync = true ↔
        Value.eventLoop ≠ Value.none)) := by
  constructor
  · exact autoasync_iff_loop (Value.str "mymod")
      ⟨Value.none, Value.none, false, Value.none, Value.none, false⟩
      (Value.func "f") (by decide) (by decide)
  · exact autoasync_iff_loop (Value.str "mymod")
      ⟨Value.none, Value.none, false, Value.none, Value.eventLoop, false⟩
      (Value.func "f") (by decide) (by decide)

/-- C4: for every non-callable `module` and every `func`, under all settings
of all six keyword arguments, the result carries the `autoparse` wrapper and,
outermost, the `automain(module)` wrapper; only the `autoasync` step varies
with the arguments. -/
theorem autoparse_automain_unconditional (module : Value) (a : Args)
    (func : Value) (hm : module.callable = false) :
    ∃ d inner, autocommand module a = Except.ok d ∧
      d func = Value.automainW module
        (Value.autoparseW inner a.description a.epilog a.add_nos a.parser) := by
  refine ⟨autocommand_decorator module a,
    (if a.loop ≠ Value.none then
       Value.autoasyncW func
         (if a.loop = Value.bool true then get_event_loop else a.loop)
         a.forever
     else func),
    by simp [autocommand, hm], ?_⟩
  by_cases h : a.loop = Value.none <;> simp [autocommand_decorator, h]

/-- Witness for C4 at `module = "mymod"` with a nontrivial argument
setting (`loop` an explicit loop object, `forever = true`). -/
theorem autoparse_automain_unconditional_witness :
    ∃ d inner, autocommand (Value.str "mymod")
        ⟨Value.str "d", Value.str "e", true, Value.str "p",
          Value.eventLoop, true⟩ = Except.ok d ∧
      d (Value.func "f") = Value.automainW (Value.str "mymod")
        (Value.autoparseW inner (Value.str "d") (Value.str "e") true
          (Value.str "p")) :=
  autoparse_automain_unconditional (Value.str "mymod")
    ⟨Value.str "d", Value.str "e", true, Value.str "p",
      Value.eventLoop, true⟩
    (Value.func "f") (by decide)

/-- C5: the parser-configuration keywords `description`, `epilog`,
`add_nos` and `parser` reach the `autoparse` node of the result unchanged,
under every setting of all the arguments. -/
theorem parser_args_forwarded (module : Value) (a : Args) (func : Value) :
    parserConfig (autocommand_decorator module a func) =
      some (a.description, a.epilog, a.add_nos, a.parser) := by
  by_cases h : a.loop = Value.none <;>
    simp [autocommand_decorator, parserConfig, h]

/-- C6: whenever `loop` is not `None`, the `forever` argument reaches the
`autoasync` node of the result unchanged. -/
theorem forever_forwarded (module : Value) (a : Args) (func : Value)
    (h : a.loop ≠ Value.none) :
    asyncForever (autocommand_decorator module a func) = some a.forever := by
  simp [autocommand_decorator, asyncForever, h]

/-- Witness for C6 at an explicit loop object with `forever = true`. -/
theorem forever_forwarded_witness :
    asyncForever (autocommand_decorator (Value.str "mymod")
        ⟨Value.none, Value.none, false, Value.none, Value.eventLoop, true⟩
        (Value.func "f")) = some true :=
  forever_forwarded (Value.str "mymod")
    ⟨Value.none, Value.none, false, Value.none, Value.eventLoop, true⟩
    (Value.func "f") (by decide)

/-- C7: `loop is True` is special-cased: when `loop` is `True` the loop
passed to `autoasync` is `asyncio.get_event_loop()`; for every other
non-`None` value of `loop`, that value is passed verbatim. -/
theorem loop_true_special_case (module : Value) (a : Args) (func : Value) :
    (a.loop = Value.bool true →
      asyncLoop (autocommand_decorator module a func) =
        some get_event_loop) ∧
    (a.loop ≠ Value.none → a.loop ≠ Value.bool true →
      asyncLoop (autocommand_decorator module a func) = some a.loop) := by
  constructor
  · intro h
    simp [autocommand_decorator, asyncLoop, h]
  · intro h1 h2
    simp [autocommand_decorator, asyncLoop, h1, h2]

/-- Witness for C7: once at `loop = True` (yielding the default event loop)
and once at a distinct loop object (passed verbatim). -/
theorem loop_true_special_case_witness :
    asyncLoop (autocommand_decorator (Value.str "mymod")
        ⟨Value.none, Value.none, false, Value.none, Value.bool true, false⟩
        (Value.func "f")) = some get_event_loop ∧
    asyncLoop (autocommand_decorator (Value.str "mymod")
        ⟨Value.none, Value.none, false, Value.none, Value.str "myloop", false⟩
        (Value.func "f")) = some (Value.str "myloop") := by
  constructor
  · exact (loop_true_special_case (Value.str "mymod")
      ⟨Value.none, Value.none, false, Value.none, Value.bool true, false⟩
      (Value.func "f")).1 (by decide)
  · exact (loop_true_special_case (Value.str "mymod")
      ⟨Value.none, Value.none, false, Value.none, Value.str "myloop", false⟩
      (Value.func "f")).2 (by decide) (by decide)

/-- C8: with `loop = None`, the decorated result does not depend on
`forever`: two argument settings that agree on everything except `forever`
decorate every `func` identically. -/
theorem forever_irrelevant_without_loop (module : Value) (a1 a2 : Args)
    (func : Value) (h1 : a1.loop = Value.none)
    (hd : a1.description = a2.description) (he : a1.epilog = a2.epilog)
    (hn : a1.add_nos = a2.add_nos) (hp : a1.parser = a2.parser)
    (hl : a1.loop = a2.loop) :
    autocommand_decorator module a1 func =
      autocommand_decorator module a2 func := by
  simp [autocommand_decorator, h1, ← hl, hd, he, hn, hp]

/-- Witness for C8: two settings differing only in `forever`, both with
`loop = None`, give the same decorated value. -/
theorem forever_irrelevant_without_loop_witness :
    autocommand_decorator (Value.str "mymod")
        ⟨Value.none, Value.none, false, Value.none, Value.none, false⟩
        (Value.func "f") =
      autocommand_decorator (Value.str "mymod")
        ⟨Value.none, Value.none, false, Value.none, Value.none, true⟩
        (Value.func "f") :=
  forever_irrelevant_without_loop (Value.str "mymod")
    ⟨Value.none, Value.none, false, Value.none, Value.none, false⟩
    ⟨Value.none, Value.none, false, Value.none, Value.none, true⟩
    (Value.func "f") (by decide) (by decide) (by decide) (by decide)
    (by decide) (by decide)

/-- C9: the callable check accepts every non-callable value for `module`,
in particular `True` and `None`; `autocommand(True)` does not raise, and the
value `True` is forwarded verbatim to `automain`, so `automain(True)` is the
outermost wrapper of every decorated result. -/
theorem module_true_accepted (a : Args) (func : Value) :
    Value.callable (Value.bool true) = false ∧
    Value.callable Value.none = false ∧
    ∃ d, autocommand (Value.bool true) a = Except.ok d ∧
      ∃ inner, d func = Value.automainW (Value.bool true) inner := by
  refine ⟨by decide, by decide,
    autocommand_decorator (Value.bool true) a,
    by simp [autocommand, Value.callable],
    Value.autoparseW
      (if a.loop ≠ Value.none then
         Value.autoasyncW func
           (if a.loop = Value.bool true then get_event_loop else a.loop)
           a.forever
       else func)
      a.description a.epilog a.add_nos a.parser, ?_⟩
  by_cases h : a.loop = Value.none <;> simp [autocommand_decorator, h]

end Autocommand
